import Mathlib

/-!
# Formal model of the ocr_tool core

Shallow embedding of the parts of the `ocr_tool` repository needed to check
its specification: the processing ledger (`src/database.py`), the
character-class predicates, confidence bucketing and furigana detection of
the text analyzers (`src/core/text_analyzer.py`, `src/text_analyzer.py`),
and the transcript formatting (`src/core/output_generator.py`,
`src/output_generation/output_generator.py`).
-/

namespace OcrTool

/-! ## Character-class predicates

From `src/text_analyzer.py` (`TextAnalyzer._is_hiragana`, `_is_katakana`,
`_is_kanji`, `_is_japanese_char`); `src/core/text_analyzer.py` has the same
`_is_hiragana` / `_is_kanji` and inlines the katakana range inside
`_is_japanese_char`. Python compares one-character strings by code point,
which is the `Char` order used here. -/

/-- `TextAnalyzer._is_hiragana`: `'぀' <= char <= 'ゟ'`. -/
def isHiragana (c : Char) : Bool :=
  '぀' ≤ c && c ≤ 'ゟ'

/-- `TextAnalyzer._is_katakana`: `'゠' <= char <= 'ヿ'`. -/
def isKatakana (c : Char) : Bool :=
  '゠' ≤ c && c ≤ 'ヿ'

/-- `TextAnalyzer._is_kanji`: `'一' <= char <= '龯'`. -/
def isKanji (c : Char) : Bool :=
  '一' ≤ c && c ≤ '龯'

/-- `TextAnalyzer._is_japanese_char`: hiragana, katakana, or kanji. -/
def isJapaneseChar (c : Char) : Bool :=
  isHiragana c || isKatakana c || isKanji c

/-- Modelled from the spec: `is_kana_like` is absent from the source tree
(`ScriptClassifier` of spec §4.2); the spec defines it as
`(is_hiragana(ch) or is_katakana(ch)) and not is_kanji(ch)`. -/
def isKanaLike (c : Char) : Bool :=
  (isHiragana c || isKatakana c) && !isKanji c

/-! ## Processing ledger (`src/database.py`, class `DatabaseManager`)

The SQLite table `processed_images` has `UNIQUE(file_path, file_hash)`;
`add_processed_image` issues `INSERT OR REPLACE`, which deletes any row
conflicting on that unique key before inserting the new row.  The table is
modelled as a list of rows in insertion order; the unique constraint is met
by construction because the replace step removes every conflicting row.

The file begins with `import datetime` — the module — yet
`add_processed_image` builds its parameter tuple with
`datetime.now().isoformat()`.  The `datetime` module has no attribute
`now`, so evaluating the tuple raises `AttributeError` on every call,
before `conn.execute` runs: the statement below never executes and the
table is never modified.  The upsert the statement would perform and the
raising call are therefore modelled separately. -/

structure ImageRow where
  file_path : String
  filename : String
  file_hash : String
  vision_json_path : String
  status : String
  error_message : Option String
  deriving DecidableEq, Repr

/-- The `processed_images` table: rows in insertion order. -/
abbrev ImageTable := List ImageRow

/-- The effect on the table of the `INSERT OR REPLACE INTO processed_images
...` statement inside `add_processed_image`, keyed on the unique
`(file_path, file_hash)` pair: the conflicting row (if any) is removed and
the fresh row appended.  `add_processed_image` would perform this write if
its parameter tuple ever finished evaluating. -/
def insertOrReplaceRow (db : ImageTable) (filePath filename fileHash visionJsonPath
    status : String) (errorMessage : Option String) : ImageTable :=
  (db.filter fun r => !(r.file_path = filePath && r.file_hash = fileHash)) ++
    [{ file_path := filePath, filename := filename, file_hash := fileHash,
       vision_json_path := visionJsonPath, status := status, error_message := errorMessage }]

/-- The expression `datetime.now()` as `src/database.py` evaluates it: the
module-level import is `import datetime` (the module, not the class), and
the module has no attribute `now`, so the attribute access raises
unconditionally. -/
def datetimeNow : Except String String :=
  Except.error "AttributeError: module datetime has no attribute now"

/-- `DatabaseManager.add_processed_image`: builds the parameter tuple —
which evaluates `datetime.now().isoformat()` — and only then executes the
upsert.  The tuple evaluation raises before the INSERT, so every call
propagates the error and leaves the table untouched. -/
def addProcessedImage (db : ImageTable) (filePath filename fileHash visionJsonPath : String)
    (status : String := "completed") (errorMessage : Option String := none) :
    Except String ImageTable :=
  match datetimeNow with
  | Except.error e => Except.error e
  | Except.ok _ =>
      Except.ok (insertOrReplaceRow db filePath filename fileHash visionJsonPath
        status errorMessage)

/-- `DatabaseManager.is_processed`: `SELECT status FROM processed_images
WHERE file_path = ? AND file_hash = ?` then `result and result[0] == 'completed'`. -/
def isProcessed (db : ImageTable) (filePath fileHash : String) : Bool :=
  match db.find? (fun r => r.file_path = filePath && r.file_hash = fileHash) with
  | some r => r.status = "completed"
  | none => false

/-- The spec's `needs_processing` operation: an item needs (re)processing
exactly when the ledger does not report it as already processed
(`batch_processor` re-runs OCR precisely when the lookup is falsy). -/
def needsProcessing (db : ImageTable) (filePath fileHash : String) : Bool :=
  !isProcessed db filePath fileHash

/-! ## Confidence bucketing (`src/core/text_analyzer.py`)

`TextAnalyzer.__init__` fixes `confidence_thresholds = {high: 0.90,
medium: 0.80, low: 0.60}` and `confidence_markers = {medium: '[?]',
low: '[??]', very_low: '[???]'}` (no marker for `high`).  Confidence values
are modelled as exact rationals. -/

/-- `TextAnalyzer._get_confidence_level`. -/
def getConfidenceLevel (confidence : ℚ) : String :=
  if confidence ≥ 9/10 then "high"
  else if confidence ≥ 8/10 then "medium"
  else if confidence ≥ 6/10 then "low"
  else "very_low"

/-- `TextAnalyzer.confidence_markers` as a lookup: `none` when the level has
no marker (the `high` case falls outside the dict). -/
def confidenceMarker (level : String) : Option String :=
  if level = "medium" then some "[?]"
  else if level = "low" then some "[??]"
  else if level = "very_low" then some "[???]"
  else none

/-! ## OCR text data model

The Vision response tree used by the analyzers: paragraph → word → symbol,
every node carrying a bounding polygon.  A symbol's `confidence` is `none`
when the value is missing or non-numeric (both are coerced to `1.0` by
`_process_paragraph_text`); a numeric value is kept exactly as a rational.
A paragraph's `bounding_box` is `none` when the protobuf field is falsy
(`if paragraph.bounding_box:`). -/

structure Vertex where
  x : Int
  y : Int
  deriving DecidableEq, Repr

structure BoundingPoly where
  vertices : List Vertex
  deriving DecidableEq, Repr

structure TextSymbol where
  text : String
  confidence : Option ℚ
  boundingBox : BoundingPoly := ⟨[]⟩
  deriving DecidableEq, Repr

structure TextWord where
  symbols : List TextSymbol
  deriving DecidableEq, Repr

structure TextParagraph where
  words : List TextWord
  boundingBox : Option BoundingPoly
  deriving DecidableEq, Repr

/-- All symbols of a paragraph, in reading order (the order both
`_extract_plain_text` and `_process_paragraph_text` traverse them). -/
def TextParagraph.allSymbols (p : TextParagraph) : List TextSymbol :=
  p.words.flatMap (·.symbols)

/-! ## Geometry helpers (`src/core/text_analyzer.py`) -/

/-- `TextAnalyzer._calculate_paragraph_width`: `abs(vertices[1].x - vertices[0].x)`,
`0` when fewer than two vertices.  Also applied to symbol-level polygons by
the spec-side classifier below. -/
def calculateParagraphWidth (bb : BoundingPoly) : ℚ :=
  match bb.vertices with
  | v0 :: v1 :: _ => ((v1.x - v0.x).natAbs : ℚ)
  | _ => 0

/-- `TextAnalyzer._calculate_paragraph_height`: `abs(vertices[2].y - vertices[0].y)`,
`0` when fewer than four vertices. -/
def calculateParagraphHeight (bb : BoundingPoly) : ℚ :=
  match bb.vertices with
  | v0 :: _ :: v2 :: _ :: _ => ((v2.y - v0.y).natAbs : ℚ)
  | _ => 0

/-- `TextAnalyzer._extract_plain_text`: concatenation of every symbol's text. -/
def extractPlainText (p : TextParagraph) : String :=
  String.join (p.allSymbols.map (·.text))

/-! ## Text heuristics (`src/core/text_analyzer.py`) -/

/-- `TextAnalyzer._is_furigana_like_text` (core variant): empty text and text
with no Japanese characters are rejected; otherwise at least 80% of the
Japanese characters must be hiragana and there must be no kanji. -/
def isFuriganaLikeText (text : String) : Bool :=
  if text.data.isEmpty then false
  else
    let hiraganaCount := (text.data.filter isHiragana).length
    let kanjiCount := (text.data.filter isKanji).length
    let japaneseCount := (text.data.filter isJapaneseChar).length
    if japaneseCount = 0 then false
    else decide ((hiraganaCount : ℚ) / japaneseCount ≥ 8/10) && decide (kanjiCount = 0)

/-- `TextAnalyzer._is_all_hiragana` (core variant): every Japanese character
is hiragana (non-Japanese characters are skipped; vacuously true). -/
def isAllHiragana (text : String) : Bool :=
  text.data.all fun c => !isJapaneseChar c || isHiragana c

/-- One record of the `all_boxes` list built by `_detect_furigana_refined`. -/
structure FuriganaBox where
  paragraph : TextParagraph
  width : ℚ
  height : ℚ
  text : String
  deriving DecidableEq, Repr

/-- `TextAnalyzer._additional_furigana_score`. -/
def additionalFuriganaScore (box : FuriganaBox) : ℕ :=
  (if box.text.length ≤ 3 then 2 else 0) +
  (if isAllHiragana box.text then 1 else 0) +
  (if box.width > 0 ∧ box.height > 0 ∧ box.width / box.height > 3/2 then 1 else 0)

/-- `statistics.median`: sort ascending; middle element for odd length, mean
of the two middle elements for even length (callers guard non-emptiness). -/
def median (l : List ℚ) : ℚ :=
  let s := List.insertionSort (· ≤ ·) l
  if s.length % 2 = 1 then s.getD (s.length / 2) 0
  else (s.getD (s.length / 2 - 1) 0 + s.getD (s.length / 2) 0) / 2

/-- The composite gate of `_detect_furigana_refined`:
`len(text) <= 5 and _is_furigana_like_text(text) and (width <= width_threshold
or height <= height_threshold)` combined with
`_additional_furigana_score(box) >= 3`. -/
def isFuriganaBox (widthThreshold heightThreshold : ℚ) (box : FuriganaBox) : Bool :=
  decide (box.text.length ≤ 5) && isFuriganaLikeText box.text &&
    (decide (box.width ≤ widthThreshold) || decide (box.height ≤ heightThreshold)) &&
    decide (additionalFuriganaScore box ≥ 3)

/-- The record appended to `all_boxes` for one paragraph with bounding box
`bb` inside `_detect_furigana_refined`. -/
def mkFuriganaBox (p : TextParagraph) (bb : BoundingPoly) : FuriganaBox :=
  { paragraph := p
    width := calculateParagraphWidth bb
    height := calculateParagraphHeight bb
    text := extractPlainText p }

/-- The `all_boxes` list of `_detect_furigana_refined`: one record per
paragraph whose `bounding_box` is truthy, in input order. -/
def allBoxes (paragraphs : List TextParagraph) : List FuriganaBox :=
  paragraphs.filterMap fun p => p.boundingBox.map (mkFuriganaBox p)

/-- `TextAnalyzer._detect_furigana_refined` (core variant), returning the
pair `(regular_paragraphs, furigana_paragraphs)`.  Paragraphs without a
bounding box never enter `all_boxes`; if `all_boxes`, the positive widths or
the positive heights are empty, everything is returned as regular. -/
def detectFuriganaRefined (paragraphs : List TextParagraph) :
    List TextParagraph × List TextParagraph :=
  if paragraphs.isEmpty then ([], [])
  else
    if (allBoxes paragraphs).isEmpty then (paragraphs, [])
    else
      let widths := ((allBoxes paragraphs).map (·.width)).filter (fun w => decide (w > 0))
      let heights := ((allBoxes paragraphs).map (·.height)).filter (fun h => decide (h > 0))
      if widths.isEmpty || heights.isEmpty then (paragraphs, [])
      else
        let widthThreshold := median widths * (5/10)
        let heightThreshold := median heights * (6/10)
        (((allBoxes paragraphs).filter fun b =>
            !isFuriganaBox widthThreshold heightThreshold b).map (·.paragraph),
         ((allBoxes paragraphs).filter (isFuriganaBox widthThreshold heightThreshold)).map
           (·.paragraph))

/-! ## Confidence-annotated rendering (`src/core/text_analyzer.py`) -/

/-- The confidence coercion of `_process_paragraph_text`:
`getattr(symbol, 'confidence', 1.0)` then `float(...)` with missing, `None`
and non-numeric all collapsing to `1.0`. -/
def resolveConfidence (confidence : Option ℚ) : ℚ :=
  confidence.getD 1

/-- The per-symbol body of `_process_paragraph_text`: wrap the text in the
marker of its confidence level when one exists. -/
def processSymbolText (s : TextSymbol) : String :=
  let confidenceLevel := getConfidenceLevel (resolveConfidence s.confidence)
  match confidenceMarker confidenceLevel with
  | some marker => marker ++ s.text ++ marker
  | none => s.text

/-- The `text_parts` list accumulated by `_process_paragraph_text`: one
entry per symbol, in reading order. -/
def paragraphTextParts (p : TextParagraph) : List String :=
  p.allSymbols.map processSymbolText

/-- `TextAnalyzer._process_paragraph_text`: `''.join(text_parts)`. -/
def processParagraphText (p : TextParagraph) : String :=
  String.join (paragraphTextParts p)

/-- Python's notion of whitespace for `str.strip()` (the Unicode whitespace
code points). -/
def pyIsSpace (c : Char) : Bool :=
  ('\u0009' ≤ c && c ≤ '\u000d') || c = ' ' || ('\u001c' ≤ c && c ≤ '\u001f') ||
    c = '\u0085' || c = '\u00a0' || c = '\u1680' ||
    ('\u2000' ≤ c && c ≤ '\u200a') || c = '\u2028' || c = '\u2029' ||
    c = '\u202f' || c = '\u205f' || c = '\u3000'

/-- Truthiness of `text.strip()`: true iff some character is not whitespace. -/
def stripTruthy (text : String) : Bool :=
  !(text.data.all pyIsSpace)

/-- The analysis result dict `{'regular_paragraphs': ..., 'furigana_paragraphs': ...}`. -/
structure AnalyzedResult where
  regular_paragraphs : List String
  furigana_paragraphs : List String
  deriving DecidableEq, Repr

/-- `TextAnalyzer._analyze_vision_response` from the flattened paragraph
list onward (lines 90–107): detect furigana, render each paragraph with
confidence markers, and drop renderings that are empty after `strip()`. -/
def analyzeParagraphs (paragraphs : List TextParagraph) : AnalyzedResult :=
  if paragraphs.isEmpty then ⟨[], []⟩
  else
    let detected := detectFuriganaRefined paragraphs
    ⟨(detected.1.map processParagraphText).filter stripTruthy,
     (detected.2.map processParagraphText).filter stripTruthy⟩

/-! ## Transcript formatting -/

/-- `OutputGenerator._build_image_section` (`src/core/output_generator.py`):
the image header line, the regular lines, then the furigana lines. -/
def buildImageSection (filename : String) (result : AnalyzedResult) : List String :=
  ("=== Image: " ++ filename ++ " ===") ::
    (result.regular_paragraphs.map (fun p => "[REGULAR] " ++ p) ++
     result.furigana_paragraphs.map (fun p => "[FURIGANA] " ++ p))

/-- `OutputGenerator.build_line` (`src/output_generation/output_generator.py`):
`f"{'[FURIGANA]' if is_furigana else '[REGULAR]'} {text}"`. -/
def buildLine (text : String) (isFurigana : Bool) : String :=
  (if isFurigana then "[FURIGANA]" else "[REGULAR]") ++ " " ++ text

/-! ## Page-level width statistics, stated independently of `all_boxes`

These recompute, directly from the paragraph list, the positive width and
height samples that `_detect_furigana_refined` gathers through `all_boxes`;
the equivalence is proved below and lets the classification theorems speak
about the page medians without mentioning the internal box records. -/

/-- The positive paragraph-box widths of the page, in input order. -/
def pageWidths (ps : List TextParagraph) : List ℚ :=
  ((ps.filterMap (·.boundingBox)).map calculateParagraphWidth).filter fun w => decide (w > 0)

/-- The positive paragraph-box heights of the page, in input order. -/
def pageHeights (ps : List TextParagraph) : List ℚ :=
  ((ps.filterMap (·.boundingBox)).map calculateParagraphHeight).filter fun h => decide (h > 0)

/-- The conditions under which `_detect_furigana_refined` puts a paragraph of
page `ps` into the furigana list: a truthy bounding box, plain text of at
most 5 characters that is furigana-like, box width at most half the page
median width or box height at most 0.6 of the page median height, and an
additional score of at least 3. -/
def furiganaCriteria (ps : List TextParagraph) (p : TextParagraph) : Prop :=
  ∃ bb, p.boundingBox = some bb ∧
    (extractPlainText p).length ≤ 5 ∧
    isFuriganaLikeText (extractPlainText p) = true ∧
    (calculateParagraphWidth bb ≤ median (pageWidths ps) * (5/10) ∨
      calculateParagraphHeight bb ≤ median (pageHeights ps) * (6/10)) ∧
    3 ≤ additionalFuriganaScore (mkFuriganaBox p bb)

/-! ## The furigana classifier exactly as the spec words it

`Modelled from the spec:` the classifier described by spec §4.4 (median
symbol width ratio below 0.8, kana-only, no word longer than 6 symbols) is
not implemented anywhere under `src/`; these definitions follow the spec's
words so the implemented classifier can be compared against them. -/

/-- Modelled from the spec: the measurable symbol-level bounding-box widths
of one paragraph (§3's `widths`, collected as encountered; a degenerate
polygon yields no measurable width). -/
def specSymbolWidths (p : TextParagraph) : List ℚ :=
  (p.allSymbols.map fun s => calculateParagraphWidth s.boundingBox).filter
    fun w => decide (0 < w)

/-- Modelled from the spec: every measurable symbol-level width across all
paragraphs of the page (§4.4 step 1). -/
def specPageWidths (ps : List TextParagraph) : List ℚ :=
  ps.flatMap specSymbolWidths

/-- Modelled from the spec: `is_kana_only` — every symbol's text is entirely
kana-like (§3). -/
def specIsKanaOnly (p : TextParagraph) : Bool :=
  p.allSymbols.all fun s => s.text.data.all isKanaLike

/-- Modelled from the spec: the furigana gate of §4.4 — with no measurable
widths everything is regular (fail open); otherwise a paragraph is furigana
iff its median symbol width over the page median symbol width is below 0.8,
it is kana-only, and no word has more than 6 symbols. -/
def specIsFurigana (ps : List TextParagraph) (p : TextParagraph) : Bool :=
  if (specPageWidths ps).isEmpty then false
  else if (specSymbolWidths p).isEmpty then false
  else
    decide (median (specSymbolWidths p) / median (specPageWidths ps) < 8/10) &&
      specIsKanaOnly p && p.words.all fun w => decide (w.symbols.length ≤ 6)

/-! ## Concrete pages used as test inputs

A small gloss paragraph (`の`), a katakana gloss paragraph (`アア`) and a
large six-kanji body paragraph, with symbol- and paragraph-level boxes. -/

/-- An axis-aligned rectangle written as the four-vertex polygon the Vision
API produces (top-left origin, clockwise). -/
def rect (x0 y0 x1 y1 : Int) : BoundingPoly :=
  ⟨[⟨x0, y0⟩, ⟨x1, y0⟩, ⟨x1, y1⟩, ⟨x0, y1⟩]⟩

/-- A one-symbol hiragana paragraph in a 10×10 box. -/
def glossParagraph : TextParagraph :=
  { words := [⟨[{ text := "の", confidence := some 1, boundingBox := rect 0 0 10 10 }]⟩]
    boundingBox := some (rect 0 0 10 10) }

/-- The i-th kanji symbol of the body paragraph: `漢` in a 30-wide box. -/
def kanjiSymbol (i : Int) : TextSymbol :=
  { text := "漢", confidence := some 1, boundingBox := rect (30 * i) 0 (30 * i + 30) 30 }

/-- A six-kanji body paragraph in a 200×200 box. -/
def bodyParagraph : TextParagraph :=
  { words := [⟨[kanjiSymbol 0, kanjiSymbol 1, kanjiSymbol 2,
                kanjiSymbol 3, kanjiSymbol 4, kanjiSymbol 5]⟩]
    boundingBox := some (rect 0 0 200 200) }

/-- The i-th katakana symbol: `ア` in a 10-wide box. -/
def katakanaSymbol (i : Int) : TextSymbol :=
  { text := "ア", confidence := some 1, boundingBox := rect (10 * i) 0 (10 * i + 10) 10 }

/-- A two-symbol katakana paragraph in a 20×10 box. -/
def katakanaParagraph : TextParagraph :=
  { words := [⟨[katakanaSymbol 0, katakanaSymbol 1]⟩]
    boundingBox := some (rect 0 0 20 10) }

/-- A symbol whose OCR confidence is missing (`getattr` falls back). -/
def noConfSymbol : TextSymbol :=
  { text := "科", confidence := none }

/-- A paragraph holding only `noConfSymbol`, with a falsy bounding box. -/
def noConfParagraph : TextParagraph :=
  { words := [⟨[noConfSymbol]⟩]
    boundingBox := none }

/-- A ledger state holding exactly one `failed` entry: the row the
failed-path upsert (`status='failed'` with an error message) writes. -/
def failedLedger : ImageTable :=
  insertOrReplaceRow [] "scan/p1.png" "p1.png" "h1" "" "failed" (some "Vision API error")

/-! ## Theorems -/

lemma allBoxes_nil : allBoxes [] = [] := rfl

lemma allBoxes_cons (p : TextParagraph) (tl : List TextParagraph) :
    allBoxes (p :: tl) =
      (p.boundingBox.map (mkFuriganaBox p)).toList ++ allBoxes tl := by
  cases h : p.boundingBox <;> simp [allBoxes, List.filterMap_cons, h]

lemma allBoxes_map_width (ps : List TextParagraph) :
    (allBoxes ps).map (·.width) =
      (ps.filterMap (·.boundingBox)).map calculateParagraphWidth := by
  induction ps with
  | nil => rfl
  | cons p tl ih =>
    cases h : p.boundingBox <;>
      simp [allBoxes_cons, List.filterMap_cons, h, mkFuriganaBox, ih]

lemma allBoxes_map_height (ps : List TextParagraph) :
    (allBoxes ps).map (·.height) =
      (ps.filterMap (·.boundingBox)).map calculateParagraphHeight := by
  induction ps with
  | nil => rfl
  | cons p tl ih =>
    cases h : p.boundingBox <;>
      simp [allBoxes_cons, List.filterMap_cons, h, mkFuriganaBox, ih]

lemma widths_eq_pageWidths (ps : List TextParagraph) :
    ((allBoxes ps).map (·.width)).filter (fun w => decide (w > 0)) = pageWidths ps := by
  rw [allBoxes_map_width]; rfl

lemma heights_eq_pageHeights (ps : List TextParagraph) :
    ((allBoxes ps).map (·.height)).filter (fun h => decide (h > 0)) = pageHeights ps := by
  rw [allBoxes_map_height]; rfl

lemma mem_allBoxes {ps : List TextParagraph} {b : FuriganaBox} :
    b ∈ allBoxes ps ↔ ∃ p ∈ ps, ∃ bb, p.boundingBox = some bb ∧ b = mkFuriganaBox p bb := by
  simp only [allBoxes, List.mem_filterMap, Option.map_eq_some']
  constructor
  · rintro ⟨p, hp, bb, hbb, hb⟩; exact ⟨p, hp, bb, hbb, hb.symm⟩
  · rintro ⟨p, hp, bb, hbb, hb⟩; exact ⟨p, hp, bb, hbb, hb.symm⟩

lemma allBoxes_map_paragraph (ps : List TextParagraph)
    (h : ∀ p ∈ ps, (p.boundingBox).isSome = true) :
    (allBoxes ps).map (·.paragraph) = ps := by
  induction ps with
  | nil => rfl
  | cons p tl ih =>
    obtain ⟨bb, hbb⟩ := Option.isSome_iff_exists.mp (h p (by simp))
    simp [allBoxes_cons, hbb, mkFuriganaBox, ih fun q hq => h q (by simp [hq])]

/-- Fail-open branches of `_detect_furigana_refined`: with no boxes, no
positive widths or no positive heights, every paragraph comes back regular. -/
lemma detect_failopen (ps : List TextParagraph)
    (h : pageWidths ps = [] ∨ pageHeights ps = []) :
    detectFuriganaRefined ps = (ps, []) := by
  unfold detectFuriganaRefined
  by_cases hps : ps.isEmpty
  · simp [hps, List.isEmpty_iff.mp hps]
  · simp only [hps, if_false]
    by_cases hb : (allBoxes ps).isEmpty
    · simp [hb]
    · simp only [hb, if_false, widths_eq_pageWidths, heights_eq_pageHeights]
      rcases h with h | h <;> simp [h]

/-- Main branch of `_detect_furigana_refined`, phrased with the page-level
statistics. -/
lemma detect_main (ps : List TextParagraph)
    (hw : pageWidths ps ≠ []) (hh : pageHeights ps ≠ []) :
    detectFuriganaRefined ps =
      (((allBoxes ps).filter fun b =>
          !isFuriganaBox (median (pageWidths ps) * (5/10))
            (median (pageHeights ps) * (6/10)) b).map (·.paragraph),
       ((allBoxes ps).filter (isFuriganaBox (median (pageWidths ps) * (5/10))
          (median (pageHeights ps) * (6/10)))).map (·.paragraph)) := by
  have hbne : ¬(allBoxes ps).isEmpty := by
    intro hb
    rw [List.isEmpty_iff] at hb
    exact hw (by rw [← widths_eq_pageWidths, hb]; rfl)
  have hpne : ¬ps.isEmpty := by
    intro hp
    rw [List.isEmpty_iff] at hp
    exact hbne (by simp [hp, allBoxes_nil])
  unfold detectFuriganaRefined
  simp only [hpne, hbne, if_false, widths_eq_pageWidths, heights_eq_pageHeights]
  simp [hw, hh]

/-- C3 counterexample: the ledger of `failedLedger` holds an entry for
`scan/p1.png` whose stored hash equals the supplied one, so the claim says
`needs_processing` must be false; the code returns true because the entry's
status is `failed`, not `completed`. -/
theorem is_processed_ignores_failed_counterexample :
    (∃ r ∈ failedLedger, r.file_path = "scan/p1.png" ∧ r.file_hash = "h1") ∧
      needsProcessing failedLedger "scan/p1.png" "h1" = true := by
  refine ⟨⟨{ file_path := "scan/p1.png", filename := "p1.png", file_hash := "h1",
             vision_json_path := "", status := "failed",
             error_message := some "Vision API error" }, by decide, by decide⟩, by decide⟩

/-- C3 amended: on a ledger whose rows have pairwise distinct
`(file_path, file_hash)` keys (the table's UNIQUE constraint),
`needs_processing` is true iff no entry for that path stores the supplied
hash **with status `completed`**. -/
theorem needs_processing_iff_no_completed_entry (db : ImageTable) (path hash : String)
    (huniq : db.Pairwise fun r r' => ¬(r.file_path = r'.file_path ∧ r.file_hash = r'.file_hash)) :
    needsProcessing db path hash = true ↔
      ∀ r ∈ db, r.file_path = path → r.file_hash = hash → r.status ≠ "completed" := by
  induction db with
  | nil => simp [needsProcessing, isProcessed]
  | cons a tl ih =>
    rw [List.pairwise_cons] at huniq
    by_cases ha : a.file_path = path ∧ a.file_hash = hash
    · have hfind : needsProcessing (a :: tl) path hash = !decide (a.status = "completed") := by
        simp [needsProcessing, isProcessed, List.find?_cons, ha.1, ha.2]
      rw [hfind]
      constructor
      · intro hst r hr hrp hrh
        rcases List.mem_cons.mp hr with rfl | hrtl
        · simpa using hst
        · exact absurd ⟨ha.1.trans hrp.symm, ha.2.trans hrh.symm⟩ (huniq.1 r hrtl)
      · intro hall
        simpa using hall a (by simp) ha.1 ha.2
    · have hfind : needsProcessing (a :: tl) path hash = needsProcessing tl path hash := by
        have : (a.file_path = path && a.file_hash = hash) = false := by
          rcases not_and_or.mp ha with h | h <;> simp [h]
        simp [needsProcessing, isProcessed, List.find?_cons, this]
      rw [hfind, ih huniq.2]
      constructor
      · intro htl r hr hrp hrh
        rcases List.mem_cons.mp hr with rfl | hrtl
        · exact absurd ⟨hrp, hrh⟩ ha
        · exact htl r hrtl hrp hrh
      · intro hall r hr hrp hrh
        exact hall r (by simp [hr]) hrp hrh

/-- C3 amended, witness at the concrete failed ledger. -/
theorem needs_processing_iff_no_completed_entry_witness :
    needsProcessing failedLedger "scan/p1.png" "h1" = true ↔
      ∀ r ∈ failedLedger, r.file_path = "scan/p1.png" → r.file_hash = "h1" →
        r.status ≠ "completed" :=
  needs_processing_iff_no_completed_entry failedLedger "scan/p1.png" "h1" (by decide)

/-- C4: the claim describes the intended behavior, but the code cannot
exhibit it — every `add_processed_image` call raises `AttributeError`
(`import datetime` imports the module, which has no `now`) while building
its parameter tuple, before the INSERT, so `record_success` never writes a
row and `needs_processing` stays true.  Had the write been reached, the
`INSERT OR REPLACE` of a `completed` row would have made `needs_processing`
false exactly as claimed. -/
theorem record_success_raises_attribute_error (db : ImageTable)
    (path filename hash jsonPath : String) :
    addProcessedImage db path filename hash jsonPath "completed" none =
      Except.error "AttributeError: module datetime has no attribute now" ∧
    needsProcessing (insertOrReplaceRow db path filename hash jsonPath "completed" none)
      path hash = false := by
  refine ⟨rfl, ?_⟩
  have hnone :
      (db.filter fun r => !(r.file_path = path && r.file_hash = hash)).find?
        (fun r => r.file_path = path && r.file_hash = hash) = none := by
    rw [List.find?_eq_none]
    intro x hx
    have h := List.of_mem_filter hx
    simp only [Bool.not_eq_true'] at h
    simp [h]
  unfold needsProcessing isProcessed insertOrReplaceRow
  rw [List.find?_append, hnone]
  simp

/-- C5: the confidence bucket boundaries all behave as specified, every
confidence value falls into one of the four buckets, and everything below
the lowest threshold lands in the `very_low` fallback. -/
theorem confidence_bucket_boundaries :
    getConfidenceLevel (90/100) = "high" ∧
    getConfidenceLevel (8999/10000) = "medium" ∧
    getConfidenceLevel (80/100) = "medium" ∧
    getConfidenceLevel (60/100) = "low" ∧
    getConfidenceLevel (5999/10000) = "very_low" ∧
    getConfidenceLevel 1 = "high" ∧
    (∀ c : ℚ, getConfidenceLevel c = "high" ∨ getConfidenceLevel c = "medium" ∨
      getConfidenceLevel c = "low" ∨ getConfidenceLevel c = "very_low") ∧
    (∀ c : ℚ, c < 6/10 → getConfidenceLevel c = "very_low") := by
  refine ⟨by norm_num [getConfidenceLevel], by norm_num [getConfidenceLevel],
    by norm_num [getConfidenceLevel], by norm_num [getConfidenceLevel],
    by norm_num [getConfidenceLevel], by norm_num [getConfidenceLevel], ?_, ?_⟩
  · intro c
    unfold getConfidenceLevel
    split_ifs <;> simp
  · intro c hc
    unfold getConfidenceLevel
    have h1 : ¬(c ≥ 9/10) := by linarith
    have h2 : ¬(c ≥ 8/10) := by linarith
    have h3 : ¬(c ≥ 6/10) := by linarith
    simp [h1, h2, h3]

/-- C5 witness: the fallback clause applied at `0.5`. -/
theorem confidence_bucket_boundaries_witness :
    (1/2 : ℚ) < 6/10 ∧ getConfidenceLevel (1/2) = "very_low" :=
  ⟨by norm_num, confidence_bucket_boundaries.2.2.2.2.2.2.2 (1/2) (by norm_num)⟩

/-- C6: a symbol whose confidence is missing or non-numeric is treated as
`1.0`: it is bucketed `high`, rendered without any marker, and contributes
exactly one entry (its unchanged text) to the paragraph's `text_parts`,
which keeps one entry per symbol. -/
theorem missing_confidence_treated_as_high (p : TextParagraph) (s : TextSymbol)
    (hs : s ∈ p.allSymbols) (hc : s.confidence = none) :
    resolveConfidence s.confidence = 1 ∧
    getConfidenceLevel (resolveConfidence s.confidence) = "high" ∧
    processSymbolText s = s.text ∧
    processSymbolText s ∈ paragraphTextParts p ∧
    (paragraphTextParts p).length = p.allSymbols.length := by
  have h1 : resolveConfidence s.confidence = 1 := by simp [resolveConfidence, hc]
  have h2 : getConfidenceLevel (resolveConfidence s.confidence) = "high" := by
    rw [h1]; norm_num [getConfidenceLevel]
  have h3 : processSymbolText s = s.text := by
    unfold processSymbolText
    rw [h2]
    simp [confidenceMarker]
  exact ⟨h1, h2, h3, List.mem_map_of_mem processSymbolText hs,
    List.length_map _ _⟩

/-- C6 witness at the concrete missing-confidence symbol. -/
theorem missing_confidence_treated_as_high_witness :
    resolveConfidence noConfSymbol.confidence = 1 ∧
    getConfidenceLevel (resolveConfidence noConfSymbol.confidence) = "high" ∧
    processSymbolText noConfSymbol = noConfSymbol.text ∧
    processSymbolText noConfSymbol ∈ paragraphTextParts noConfParagraph ∧
    (paragraphTextParts noConfParagraph).length = noConfParagraph.allSymbols.length :=
  missing_confidence_treated_as_high noConfParagraph noConfSymbol (by decide) rfl

/-- C8 counterexample: the furigana line carries a single separator space
and no trailing space, so it differs from the claim's space-wrapped form
`"[FURIGANA]" ++ " " ++ text ++ " "`. -/
theorem furigana_line_not_space_wrapped_counterexample :
    buildLine "あ" true = "[FURIGANA] あ" ∧
      buildLine "あ" true ≠ "[FURIGANA]" ++ " " ++ "あ" ++ " " := by
  exact ⟨by decide, by decide⟩

/-- C8 amended: both classes get the same shape — the tag, one separator
space, then the text, with no extra wrapping; the per-image section builder
of `src/core/output_generator.py` produces exactly the lines that
`build_line` of `src/output_generation/output_generator.py` would. -/
theorem line_format_tag_space_text (fn : String) (r : AnalyzedResult) (t : String) :
    buildImageSection fn r =
      ("=== Image: " ++ fn ++ " ===") ::
        (r.regular_paragraphs.map (fun s => buildLine s false) ++
         r.furigana_paragraphs.map (fun s => buildLine s true)) ∧
    buildLine t true = "[FURIGANA] " ++ t ∧
    buildLine t false = "[REGULAR] " ++ t := by
  refine ⟨?_, rfl, rfl⟩
  rfl

/-- C9: the three script predicates hold exactly on their Unicode blocks, a
character outside all three blocks satisfies none of them, and the
spec-level `is_kana_like` examples evaluate as stated. -/
theorem script_predicates_match_unicode_blocks :
    (∀ c : Char,
      (isHiragana c = true ↔ 0x3040 ≤ c.toNat ∧ c.toNat ≤ 0x309F) ∧
      (isKatakana c = true ↔ 0x30A0 ≤ c.toNat ∧ c.toNat ≤ 0x30FF) ∧
      (isKanji c = true ↔ 0x4E00 ≤ c.toNat ∧ c.toNat ≤ 0x9FAF)) ∧
    (∀ c : Char,
      c.toNat < 0x3040 ∨ (0x30FF < c.toNat ∧ c.toNat < 0x4E00) ∨ 0x9FAF < c.toNat →
        isHiragana c = false ∧ isKatakana c = false ∧ isKanji c = false) ∧
    (isKanaLike 'あ' = true ∧ isKanaLike 'ア' = true ∧
     isKanaLike '漢' = false ∧ isKanaLike 'A' = false) := by
  have hle : ∀ a b : Char, a ≤ b ↔ a.toNat ≤ b.toNat := by
    intro a b
    rw [Char.le_def, UInt32.le_def]
    rfl
  have hchar : ∀ c : Char,
      (isHiragana c = true ↔ 0x3040 ≤ c.toNat ∧ c.toNat ≤ 0x309F) ∧
      (isKatakana c = true ↔ 0x30A0 ≤ c.toNat ∧ c.toNat ≤ 0x30FF) ∧
      (isKanji c = true ↔ 0x4E00 ≤ c.toNat ∧ c.toNat ≤ 0x9FAF) := by
    intro c
    refine ⟨?_, ?_, ?_⟩ <;>
      simp [isHiragana, isKatakana, isKanji, hle]
  refine ⟨hchar, ?_, by decide, by decide, by decide, by decide⟩
  intro c hc
  refine ⟨?_, ?_, ?_⟩ <;> rw [Bool.eq_false_iff] <;> intro h
  · have := ((hchar c).1).mp h
    omega
  · have := ((hchar c).2.1).mp h
    omega
  · have := ((hchar c).2.2).mp h
    omega

/-- C9 witness: the outside-all-blocks clause applied at the Latin letter. -/
theorem script_predicates_match_unicode_blocks_witness :
    isHiragana 'A' = false ∧ isKatakana 'A' = false ∧ isKanji 'A' = false :=
  script_predicates_match_unicode_blocks.2.1 'A' (by decide)

/-- C10: every rendering kept in either result list survives the
`text.strip()` filter, i.e. it contains at least one non-whitespace
character — no blank paragraph line can reach the transcript section. -/
theorem blank_renderings_filtered (ps : List TextParagraph) (t : String)
    (ht : t ∈ (analyzeParagraphs ps).regular_paragraphs ∨
          t ∈ (analyzeParagraphs ps).furigana_paragraphs) :
    stripTruthy t = true ∧ ∃ c ∈ t.data, pyIsSpace c = false := by
  have hstrip : stripTruthy t = true := by
    unfold analyzeParagraphs at ht
    by_cases hps : ps.isEmpty
    · simp [hps] at ht
    · simp only [hps, if_false] at ht
      rcases ht with h | h <;> exact (List.mem_filter.mp h).2
  refine ⟨hstrip, ?_⟩
  unfold stripTruthy at hstrip
  rw [Bool.not_eq_true', List.all_eq_false] at hstrip
  obtain ⟨c, hc, hcs⟩ := hstrip
  exact ⟨c, hc, Bool.not_eq_true _ ▸ Bool.of_not_eq_true hcs⟩

lemma analyze_noConf : analyzeParagraphs [noConfParagraph] = ⟨["科"], []⟩ := by
  have hdet : detectFuriganaRefined [noConfParagraph] = ([noConfParagraph], []) := by
    unfold detectFuriganaRefined
    simp [allBoxes, List.filterMap_cons, noConfParagraph]
  have hpt : processParagraphText noConfParagraph = "科" := by
    unfold processParagraphText paragraphTextParts processSymbolText
    norm_num [noConfParagraph, noConfSymbol, TextParagraph.allSymbols, resolveConfidence,
      getConfidenceLevel, confidenceMarker]
    decide
  unfold analyzeParagraphs
  simp only [hdet]
  simp [hpt, stripTruthy, pyIsSpace]

/-- C10 witness: the surviving rendering of the concrete one-paragraph page. -/
theorem blank_renderings_filtered_witness :
    stripTruthy "科" = true ∧ ∃ c ∈ "科".data, pyIsSpace c = false :=
  blank_renderings_filtered [noConfParagraph] "科" (Or.inl (by rw [analyze_noConf]; simp))

lemma median_singleton (a : ℚ) : median [a] = a := by
  simp [median, List.insertionSort, List.orderedInsert]

/-- C7: a page consisting of exactly one paragraph is always classified
regular — whichever fail-open branch or threshold comparison applies, the
lone paragraph can never be smaller than its own median. -/
theorem single_paragraph_page_regular (p : TextParagraph) :
    detectFuriganaRefined [p] = ([p], []) := by
  cases hbb : p.boundingBox with
  | none =>
    unfold detectFuriganaRefined
    simp [allBoxes, List.filterMap_cons, hbb]
  | some bb =>
    have hboxes : allBoxes [p] = [mkFuriganaBox p bb] := by
      simp [allBoxes, List.filterMap_cons, hbb]
    unfold detectFuriganaRefined
    simp only [hboxes, List.isEmpty_cons, List.isEmpty_nil, Bool.false_eq_true, if_false,
      List.map_cons, List.map_nil, mkFuriganaBox]
    by_cases hw : (0:ℚ) < calculateParagraphWidth bb
    · by_cases hh : (0:ℚ) < calculateParagraphHeight bb
      · have hwle : ¬(calculateParagraphWidth bb ≤
            median [calculateParagraphWidth bb] * (5/10)) := by
          rw [median_singleton]; linarith
        have hhle : ¬(calculateParagraphHeight bb ≤
            median [calculateParagraphHeight bb] * (6/10)) := by
          rw [median_singleton]; linarith
        simp [hw, hh, isFuriganaBox, mkFuriganaBox, hwle, hhle]
      · simp [hw, hh]
    · simp [hw]

/-- C1 amended: with every paragraph carrying a bounding box, the classifier
fails open (everything regular) when the page has no positive widths or no
positive heights; otherwise a paragraph lands in the furigana list iff its
plain text is at most 5 characters and furigana-like (≥ 80% hiragana among
its Japanese characters, no kanji), its box is small against the page
medians (width ≤ 0.5 × median width or height ≤ 0.6 × median height), and
its additional score reaches 3. -/
theorem furigana_classification_characterization (ps : List TextParagraph)
    (p : TextParagraph) (hp : p ∈ ps) :
    (pageWidths ps = [] ∨ pageHeights ps = [] → detectFuriganaRefined ps = (ps, [])) ∧
    (pageWidths ps ≠ [] → pageHeights ps ≠ [] →
      (p ∈ (detectFuriganaRefined ps).2 ↔ furiganaCriteria ps p)) := by
  refine ⟨detect_failopen ps, ?_⟩
  intro hw hh
  rw [detect_main ps hw hh]
  simp only [List.mem_map, List.mem_filter]
  constructor
  · rintro ⟨b, ⟨hbmem, hbP⟩, hbp⟩
    obtain ⟨q, hq, bb, hqbb, rfl⟩ := mem_allBoxes.mp hbmem
    have hqp : q = p := hbp
    subst hqp
    simp only [isFuriganaBox, mkFuriganaBox, Bool.and_eq_true, Bool.or_eq_true,
      decide_eq_true_eq] at hbP
    obtain ⟨⟨⟨h1, h2⟩, h3⟩, h4⟩ := hbP
    exact ⟨bb, hqbb, h1, h2, h3, h4⟩
  · rintro ⟨bb, hbb, h1, h2, h3, h4⟩
    refine ⟨mkFuriganaBox p bb, ⟨mem_allBoxes.mpr ⟨p, hp, bb, hbb, rfl⟩, ?_⟩, rfl⟩
    simp only [isFuriganaBox, mkFuriganaBox, Bool.and_eq_true, Bool.or_eq_true,
      decide_eq_true_eq]
    exact ⟨⟨⟨h1, h2⟩, h3⟩, h4⟩

lemma pageWidths_gloss_body : pageWidths [glossParagraph, bodyParagraph] = [10, 200] := by
  norm_num [pageWidths, glossParagraph, bodyParagraph, rect, calculateParagraphWidth,
    List.filterMap_cons]

lemma pageHeights_gloss_body : pageHeights [glossParagraph, bodyParagraph] = [10, 200] := by
  norm_num [pageHeights, glossParagraph, bodyParagraph, rect, calculateParagraphHeight,
    List.filterMap_cons]

lemma median_10_200 : median [(10 : ℚ), 200] = 105 := by
  norm_num [median, List.insertionSort, List.orderedInsert]

lemma allBoxes_gloss_body :
    allBoxes [glossParagraph, bodyParagraph] =
      [mkFuriganaBox glossParagraph (rect 0 0 10 10),
       mkFuriganaBox bodyParagraph (rect 0 0 200 200)] := by
  simp [allBoxes, List.filterMap_cons, glossParagraph, bodyParagraph]

lemma isFuriganaLikeText_no : isFuriganaLikeText "の" = true := by
  have h0 : "の".data.isEmpty = false := by decide
  have h1 : ("の".data.filter isHiragana).length = 1 := by decide
  have h2 : ("の".data.filter isKanji).length = 0 := by decide
  have h3 : ("の".data.filter isJapaneseChar).length = 1 := by decide
  simp only [isFuriganaLikeText, h0, h1, h2, h3]
  norm_num

lemma gloss_box_is_furigana :
    isFuriganaBox (105 * (5/10)) (105 * (6/10))
      (mkFuriganaBox glossParagraph (rect 0 0 10 10)) = true := by
  have htext : extractPlainText glossParagraph = "の" := by decide
  have hall : isAllHiragana "の" = true := by decide
  have hlen : "の".length = 1 := by decide
  have hw : calculateParagraphWidth (rect 0 0 10 10) = 10 := by
    norm_num [calculateParagraphWidth, rect]
  have hh : calculateParagraphHeight (rect 0 0 10 10) = 10 := by
    norm_num [calculateParagraphHeight, rect]
  simp only [isFuriganaBox, additionalFuriganaScore, mkFuriganaBox, htext, hw, hh,
    isFuriganaLikeText_no, hall, hlen]
  norm_num

lemma body_box_not_furigana (wt ht : ℚ) :
    isFuriganaBox wt ht (mkFuriganaBox bodyParagraph (rect 0 0 200 200)) = false := by
  have htext : extractPlainText bodyParagraph = "漢漢漢漢漢漢" := by decide
  have hlen : "漢漢漢漢漢漢".length = 6 := by decide
  simp only [isFuriganaBox, mkFuriganaBox, htext, hlen]
  norm_num

lemma detect_gloss_body :
    detectFuriganaRefined [glossParagraph, bodyParagraph] =
      ([bodyParagraph], [glossParagraph]) := by
  rw [detect_main _ (by rw [pageWidths_gloss_body]; simp)
      (by rw [pageHeights_gloss_body]; simp)]
  rw [pageWidths_gloss_body, pageHeights_gloss_body, median_10_200, allBoxes_gloss_body]
  rw [List.filter_cons, List.filter_cons, List.filter_cons, List.filter_cons]
  simp only [gloss_box_is_furigana, body_box_not_furigana]
  simp [mkFuriganaBox]

lemma ppt_gloss : processParagraphText glossParagraph = "の" := by
  unfold processParagraphText paragraphTextParts processSymbolText
  norm_num [glossParagraph, TextParagraph.allSymbols, resolveConfidence,
    getConfidenceLevel, confidenceMarker]
  decide

lemma ppt_body : processParagraphText bodyParagraph = "漢漢漢漢漢漢" := by
  unfold processParagraphText paragraphTextParts processSymbolText
  norm_num [bodyParagraph, kanjiSymbol, TextParagraph.allSymbols, resolveConfidence,
    getConfidenceLevel, confidenceMarker]
  decide

lemma analyze_gloss_body :
    analyzeParagraphs [glossParagraph, bodyParagraph] = ⟨["漢漢漢漢漢漢"], ["の"]⟩ := by
  have hs1 : stripTruthy "の" = true := by decide
  have hs2 : stripTruthy "漢漢漢漢漢漢" = true := by decide
  unfold analyzeParagraphs
  rw [detect_gloss_body]
  simp [ppt_gloss, ppt_body, hs1, hs2]

/-- C2 counterexample: on the two-paragraph page `[gloss, body]` the gloss
is classified furigana, so the classifier's output — consumed by the
formatter as regular list then furigana list — carries the paragraphs as
`[body, gloss]`, not in the original reading order `[gloss, body]`, and the
formatted section lists the body's line before the gloss's. -/
theorem classifier_output_not_reading_order_counterexample :
    (detectFuriganaRefined [glossParagraph, bodyParagraph]).1 ++
        (detectFuriganaRefined [glossParagraph, bodyParagraph]).2 =
      [bodyParagraph, glossParagraph] ∧
    [bodyParagraph, glossParagraph] ≠ [glossParagraph, bodyParagraph] ∧
    buildImageSection "page.png" (analyzeParagraphs [glossParagraph, bodyParagraph]) =
      ["=== Image: page.png ===", "[REGULAR] 漢漢漢漢漢漢", "[FURIGANA] の"] := by
  refine ⟨by rw [detect_gloss_body]; rfl, ?_, by rw [analyze_gloss_body]; rfl⟩
  intro h
  simp [glossParagraph, bodyParagraph, kanjiSymbol, rect] at h

/-- Splitting a list into the non-matching then the matching elements is a
permutation of the list, after mapping. -/
lemma partition_map_perm {α β : Type} (f : α → β) (q : α → Bool) (l : List α) :
    List.Perm ((l.filter fun x => !q x).map f ++ (l.filter q).map f) (l.map f) := by
  rw [← List.map_append]
  exact List.Perm.map f ((List.perm_append_comm).trans (List.filter_append_perm _ _))

/-- C2 amended: when every paragraph has a bounding box, classification
neither drops nor duplicates a paragraph (the two output lists together are
a permutation of the input and each preserves the input's relative order),
and the formatted section emits one tagged line per kept rendering — but in
regular-block-then-furigana-block order, not the interleaved reading
order. -/
theorem classification_partitions_in_order (ps : List TextParagraph) (fn : String)
    (hbox : ∀ p ∈ ps, (p.boundingBox).isSome = true) :
    List.Perm ((detectFuriganaRefined ps).1 ++ (detectFuriganaRefined ps).2) ps ∧
    List.Sublist (detectFuriganaRefined ps).1 ps ∧
    List.Sublist (detectFuriganaRefined ps).2 ps ∧
    buildImageSection fn (analyzeParagraphs ps) =
      ("=== Image: " ++ fn ++ " ===") ::
        ((analyzeParagraphs ps).regular_paragraphs.map (fun t => "[REGULAR] " ++ t) ++
         (analyzeParagraphs ps).furigana_paragraphs.map (fun t => "[FURIGANA] " ++ t)) := by
  have hmap := allBoxes_map_paragraph ps hbox
  refine ⟨?_, ?_, ?_, rfl⟩ <;>
    rcases Classical.em (pageWidths ps = [] ∨ pageHeights ps = []) with hfail | hok
  · rw [detect_failopen ps hfail]; simp
  · push_neg at hok
    rw [detect_main ps hok.1 hok.2]
    conv_rhs => rw [← hmap]
    exact partition_map_perm _ _ _
  · rw [detect_failopen ps hfail]
  · push_neg at hok
    rw [detect_main ps hok.1 hok.2]
    conv_rhs => rw [← hmap]
    exact List.Sublist.map _ (List.filter_sublist _)
  · rw [detect_failopen ps hfail]; exact List.nil_sublist ps
  · push_neg at hok
    rw [detect_main ps hok.1 hok.2]
    conv_rhs => rw [← hmap]
    exact List.Sublist.map _ (List.filter_sublist _)

/-- C2 amended, witness at the concrete two-paragraph page. -/
theorem classification_partitions_in_order_witness :
    List.Perm ((detectFuriganaRefined [glossParagraph, bodyParagraph]).1 ++
        (detectFuriganaRefined [glossParagraph, bodyParagraph]).2)
      [glossParagraph, bodyParagraph] ∧
    List.Sublist (detectFuriganaRefined [glossParagraph, bodyParagraph]).1
      [glossParagraph, bodyParagraph] ∧
    List.Sublist (detectFuriganaRefined [glossParagraph, bodyParagraph]).2
      [glossParagraph, bodyParagraph] ∧
    buildImageSection "page.png" (analyzeParagraphs [glossParagraph, bodyParagraph]) =
      ("=== Image: " ++ "page.png" ++ " ===") ::
        ((analyzeParagraphs [glossParagraph, bodyParagraph]).regular_paragraphs.map
            (fun t => "[REGULAR] " ++ t) ++
         (analyzeParagraphs [glossParagraph, bodyParagraph]).furigana_paragraphs.map
            (fun t => "[FURIGANA] " ++ t)) :=
  classification_partitions_in_order [glossParagraph, bodyParagraph] "page.png"
    (by intro p hp; simp only [List.mem_cons, List.not_mem_nil, or_false] at hp
        rcases hp with rfl | rfl <;> rfl)

lemma pageWidths_kata_body : pageWidths [katakanaParagraph, bodyParagraph] = [20, 200] := by
  norm_num [pageWidths, katakanaParagraph, bodyParagraph, rect, calculateParagraphWidth,
    List.filterMap_cons]

lemma pageHeights_kata_body : pageHeights [katakanaParagraph, bodyParagraph] = [10, 200] := by
  norm_num [pageHeights, katakanaParagraph, bodyParagraph, rect, calculateParagraphHeight,
    List.filterMap_cons]

lemma allBoxes_kata_body :
    allBoxes [katakanaParagraph, bodyParagraph] =
      [mkFuriganaBox katakanaParagraph (rect 0 0 20 10),
       mkFuriganaBox bodyParagraph (rect 0 0 200 200)] := by
  simp [allBoxes, List.filterMap_cons, katakanaParagraph, bodyParagraph]

lemma isFuriganaLikeText_kata : isFuriganaLikeText "アア" = false := by
  have h0 : "アア".data.isEmpty = false := by decide
  have h1 : ("アア".data.filter isHiragana).length = 0 := by decide
  have h2 : ("アア".data.filter isKanji).length = 0 := by decide
  have h3 : ("アア".data.filter isJapaneseChar).length = 2 := by decide
  simp only [isFuriganaLikeText, h0, h1, h2, h3]
  norm_num

lemma kata_box_not_furigana (wt ht : ℚ) :
    isFuriganaBox wt ht (mkFuriganaBox katakanaParagraph (rect 0 0 20 10)) = false := by
  have htext : extractPlainText katakanaParagraph = "アア" := by decide
  simp only [isFuriganaBox, mkFuriganaBox, htext, isFuriganaLikeText_kata]
  simp

lemma detect_kata_body :
    detectFuriganaRefined [katakanaParagraph, bodyParagraph] =
      ([katakanaParagraph, bodyParagraph], []) := by
  rw [detect_main _ (by rw [pageWidths_kata_body]; simp)
      (by rw [pageHeights_kata_body]; simp)]
  rw [allBoxes_kata_body]
  rw [List.filter_cons, List.filter_cons, List.filter_cons, List.filter_cons]
  simp only [kata_box_not_furigana, body_box_not_furigana]
  simp [mkFuriganaBox]

lemma specSymbolWidths_kata : specSymbolWidths katakanaParagraph = [10, 10] := by
  norm_num [specSymbolWidths, katakanaParagraph, katakanaSymbol, TextParagraph.allSymbols,
    rect, calculateParagraphWidth]

lemma specSymbolWidths_body : specSymbolWidths bodyParagraph = [30, 30, 30, 30, 30, 30] := by
  norm_num [specSymbolWidths, bodyParagraph, kanjiSymbol, TextParagraph.allSymbols,
    rect, calculateParagraphWidth]

lemma spec_kata_furigana :
    specIsFurigana [katakanaParagraph, bodyParagraph] katakanaParagraph = true := by
  have hpage : specPageWidths [katakanaParagraph, bodyParagraph] =
      [10, 10, 30, 30, 30, 30, 30, 30] := by
    simp [specPageWidths, specSymbolWidths_kata, specSymbolWidths_body]
  have hm1 : median [(10 : ℚ), 10, 30, 30, 30, 30, 30, 30] = 30 := by
    norm_num [median, List.insertionSort, List.orderedInsert]
  have hm2 : median [(10 : ℚ), 10] = 10 := by
    norm_num [median, List.insertionSort, List.orderedInsert]
  have hkana : specIsKanaOnly katakanaParagraph = true := by decide
  have hwords : (katakanaParagraph.words.all fun w => decide (w.symbols.length ≤ 6)) = true := by
    decide
  simp only [specIsFurigana, hpage, specSymbolWidths_kata, hm1, hm2, hkana, hwords]
  norm_num

/-- C1 counterexample: on the katakana-gloss page, the spec's three-part
gate (§4.4) classifies the katakana paragraph as furigana (ratio 10/30 <
0.8, kana-only, words ≤ 6 symbols), but the implementation returns an empty
furigana list — its `_is_furigana_like_text` requires ≥ 80% *hiragana* and
rejects pure katakana. -/
theorem spec_gate_disagrees_with_code_counterexample :
    specIsFurigana [katakanaParagraph, bodyParagraph] katakanaParagraph = true ∧
    katakanaParagraph ∈ [katakanaParagraph, bodyParagraph] ∧
    (detectFuriganaRefined [katakanaParagraph, bodyParagraph]).2 = [] :=
  ⟨spec_kata_furigana, by simp, by rw [detect_kata_body]⟩

/-- C1 amended witness: the characterization applied to the concrete
gloss/body page, extracting the criteria from the gloss's membership in the
furigana list. -/
theorem furigana_classification_characterization_witness :
    furiganaCriteria [glossParagraph, bodyParagraph] glossParagraph :=
  (((furigana_classification_characterization [glossParagraph, bodyParagraph]
        glossParagraph (by simp)).2
      (by rw [pageWidths_gloss_body]; simp)
      (by rw [pageHeights_gloss_body]; simp)).mp
    (by rw [detect_gloss_body]; simp))

end OcrTool
